import Mathlib

/-!
Shallow embedding of `src/hackathon/login.js` (client-side login/signup
controller of the alumni portal).  JavaScript strings are modelled as Lean
`String`; a value that may be `null`/`undefined` is an `Option`; machine
behaviour such as `parseInt`, string truthiness (`!!s`, `s || d`) and
`String.prototype.includes` is modelled explicitly below.  Asynchronous
effects (fetch, localStorage, DOM) are modelled by passing the relevant
state explicitly: the fetch outcome is a parameter, the `token` and
`users` localStorage slots are explicit arguments and results.
-/

namespace LoginJs

/-! ## JavaScript primitives -/

/-- Truthiness of a JS value that is either a string or `null`/`undefined`:
`null`, `undefined` and the empty string are falsy. -/
def jsTruthyStr : Option String → Bool
  | none => false
  | some s => s != ""

/-- The JS expression `o || d` where `o` is a string or `null`/`undefined`:
returns `d` when `o` is falsy. -/
def jsOrElse (o : Option String) (d : String) : String :=
  match o with
  | none => d
  | some s => if s = "" then d else s

/-- The JS expression `s || d` for a plain string `s` (falsy iff empty). -/
def jsStrOr (s d : String) : String :=
  if s = "" then d else s

/-- `startsWithList s pat` holds when the char list `pat` is an initial
segment of `s`; building block for `String.prototype.includes`. -/
def startsWithList : List Char → List Char → Bool
  | _, [] => true
  | [], _ :: _ => false
  | c :: cs, p :: ps => c == p && startsWithList cs ps

/-- `containsList pat s`: the char list `pat` occurs contiguously in `s`. -/
def containsList (pat : List Char) : List Char → Bool
  | [] => startsWithList [] pat
  | c :: t => startsWithList (c :: t) pat || containsList pat t

/-- Model of `s.includes(pat)` on JS strings. -/
def strContains (s pat : String) : Bool :=
  containsList pat.data s.data

/-! ## `parseInt` (as used by `validatePassingYear`)

JS `parseInt(s)` with no radix argument: skip leading whitespace, read an
optional sign, detect a `0x`/`0X` prefix (hexadecimal) and otherwise use
base 10, then read the longest prefix of valid digits; `NaN` (here `none`)
when no digit is read.  Trailing garbage is ignored. -/

/-- Value of one digit character in the given base, `none` if invalid. -/
def digitValIn (base : Nat) (c : Char) : Option Nat :=
  let v : Nat :=
    if '0' ≤ c ∧ c ≤ '9' then c.toNat - '0'.toNat
    else if 'a' ≤ c ∧ c ≤ 'z' then c.toNat - 'a'.toNat + 10
    else if 'A' ≤ c ∧ c ≤ 'Z' then c.toNat - 'A'.toNat + 10
    else 99
  if v < base then some v else none

/-- Accumulate the longest prefix of valid digits; `seen` records whether at
least one digit has been consumed (otherwise the parse is `NaN`). -/
def takeDigitsVal (base : Nat) : List Char → Nat → Bool → Option Nat
  | [], acc, seen => if seen then some acc else none
  | c :: t, acc, seen =>
    match digitValIn base c with
    | some v => takeDigitsVal base t (acc * base + v) true
    | none => if seen then some acc else none

/-- Attach the sign to a parsed magnitude. -/
def signResult (neg : Bool) : Option Nat → Option Int
  | none => none
  | some v => some (if neg then -(v : Int) else (v : Int))

/-- Parse after the optional sign: detect the hexadecimal prefix. -/
def parseAfterSign (neg : Bool) (cs : List Char) : Option Int :=
  match cs with
  | '0' :: 'x' :: t => signResult neg (takeDigitsVal 16 t 0 false)
  | '0' :: 'X' :: t => signResult neg (takeDigitsVal 16 t 0 false)
  | _ => signResult neg (takeDigitsVal 10 cs 0 false)

/-- Model of JS `parseInt(s)` (radix auto-detected); `none` models `NaN`.
Whitespace is modelled by `Char.isWhitespace` (space, tab, CR, LF), which
covers the whitespace that can occur in form input. -/
def jsParseInt (s : String) : Option Int :=
  match s.data.dropWhile Char.isWhitespace with
  | '-' :: t => parseAfterSign true t
  | '+' :: t => parseAfterSign false t
  | cs => parseAfterSign false cs

/-! ## Field validation functions (login.js lines 179–206) -/

/-- `validateRegistrationNumber(regNo)`: the regex `^[A-Za-z0-9]{6,}$`,
i.e. only ASCII letters and digits, length at least 6. -/
def validateRegistrationNumber (regNo : String) : Bool :=
  regNo.length ≥ 6 && regNo.data.all (fun c => c.isAlpha || c.isDigit)

/-- `validatePassingYear(year)`: `parseInt(year)` must satisfy
`numYear >= 1970 && numYear <= 2025`; on `NaN` both comparisons are false. -/
def validatePassingYear (year : String) : Bool :=
  match jsParseInt year with
  | none => false
  | some n => decide (1970 ≤ n) && decide (n ≤ 2025)

/-- The optional symbol set of the password regex. -/
def passwordSymbols : List Char := ['@', '$', '!', '%', '*', '#', '?', '&']

/-- `validatePassword(password)`: the regex
`^(?=.*[A-Za-z])(?=.*\d)[A-Za-z\d@$!%*#?&]\x7b8,\x7d$`: at least one letter,
at least one digit, length ≥ 8, and every character a letter, digit or
allowed symbol. -/
def validatePassword (password : String) : Bool :=
  password.data.any (fun c => c.isAlpha) &&
  password.data.any (fun c => c.isDigit) &&
  password.length ≥ 8 &&
  password.data.all (fun c => c.isAlpha || c.isDigit || passwordSymbols.contains c)

/-! ## Department catalog and `handleCourseChange` (lines 30–41, 96–120) -/

/-- The constant `departmentData` object: course category to department
list.  Object-literal own properties, in source order. -/
def departmentData : List (String × List String) :=
  [("UG", ["ECONOMICS", "ENGLISH", "GEOGRAPHY", "HINDI", "HISTORY",
           "PHILOSOPHY", "POLITICAL SCIENCE", "PSYCHOLOGY", "URDU",
           "BOTANY", "CHEMISTRY", "MATHEMATICS", "PHYSICS", "ZOOLOGY",
           "BCA", "BBA", "BED"]),
   ("PG", ["ECONOMICS", "GEOGRAPHY", "HINDI", "HISTORY",
           "POLITICAL SCIENCE", "PHYSICS", "CHEMISTRY"])]

/-- The property access `departmentData[selectedCourse]`. -/
def lookupCourse (c : String) : Option (List String) :=
  (departmentData.find? (fun p => p.1 == c)).map (fun p => p.2)

/-- Observable state of the department `<select>`: its `disabled` flag and
its option values (`innerHTML`). -/
structure DeptState where
  disabled : Bool
  options : List String
deriving DecidableEq

/-- The placeholder option `<option value="">Select Department</option>`. -/
def placeholderOption : String := "Select Department"

/-- `handleCourseChange()`: resets the options to the single placeholder,
then, when the course is truthy and present in `departmentData`, enables
the dropdown and appends that course's departments; otherwise disables it.
The result overwrites the previous dropdown state completely. -/
def handleCourseChange (selectedCourse : String) (_st : DeptState) : DeptState :=
  if selectedCourse = "" then
    { disabled := true, options := [placeholderOption] }
  else
    match lookupCourse selectedCourse with
    | some depts => { disabled := false, options := placeholderOption :: depts }
    | none => { disabled := true, options := [placeholderOption] }

/-! ## Message/feedback UI with auto-hide timers (lines 360–382)

`showMessage` sets the message text/kind, shows the container and calls
`setTimeout(hideMessage, 5000)` WITHOUT keeping or clearing any timer
handle.  The model records the multiset of pending timer fire times; time
is an explicit `Nat` (milliseconds).  `advanceTo now` fires every timer
due at or before `now`: each firing runs `hideMessage`, so the net effect
is hiding the message and dropping the due timers. -/

structure MsgState where
  visibleText : Option (String × String)
  timers : List Nat
deriving DecidableEq

/-- No message shown, no timer pending. -/
def initialMsgState : MsgState := ⟨none, []⟩

/-- `showMessage(text, type)` called at absolute time `now`: overwrite the
message content, show it, and schedule one more auto-hide at `now + 5000`. -/
def showMessage (now : Nat) (text kind : String) (s : MsgState) : MsgState :=
  { visibleText := some (text, kind), timers := s.timers ++ [now + 5000] }

/-- `hideMessage()`: conceal the message area. -/
def hideMessage (s : MsgState) : MsgState :=
  { s with visibleText := none }

/-- Let time pass until `now`: every pending timer with fire time ≤ `now`
fires (each one just hides the message); the remaining timers stay. -/
def advanceTo (now : Nat) (s : MsgState) : MsgState :=
  if s.timers.any (fun t => decide (t ≤ now)) then
    { visibleText := none, timers := s.timers.filter (fun t => decide (now < t)) }
  else s

/-! ## Form data records -/

/-- The `loginData` object assembled in `handleLogin` (lines 483–486). -/
structure LoginData where
  regNo : String
  password : String
deriving DecidableEq

/-- The `signupData` object assembled in `handleSignup` (lines 538–549). -/
structure SignupData where
  name : String
  fatherName : String
  course : String
  department : String
  regNo : String
  passingYear : String
  password : String
  confirmPassword : String
  currentPosition : String
  currentCompany : String
deriving DecidableEq

/-- `loginData` assembly: `loginRegNo` is trimmed, the password is not. -/
def mkLoginData (rawRegNo rawPassword : String) : LoginData :=
  { regNo := rawRegNo.trim, password := rawPassword }

/-- All-empty signup fields (the state of the form after `reset()`). -/
def emptySignupData : SignupData :=
  ⟨"", "", "", "", "", "", "", "", "", ""⟩

/-! ## Form state controller (lines 141–148) -/

inductive FormMode where
  | login
  | signup
deriving DecidableEq

/-- The observable UI state relevant to form switching: which form is
active, whether the message container has the `show` class, the signup
form's field contents, the department dropdown state, and the login form's
field contents (untouched by `switchToLogin`). -/
structure UIState where
  activeForm : FormMode
  messageShown : Bool
  signupFields : SignupData
  dept : DeptState
  loginFields : LoginData
deriving DecidableEq

/-- `switchToLogin()`: marks the login form active and the signup form
inactive, hides any message, resets the signup form's inputs, disables the
department dropdown and resets its options to the single placeholder. -/
def switchToLogin (s : UIState) : UIState :=
  { activeForm := .login,
    messageShown := false,
    signupFields := emptySignupData,
    dept := { disabled := true, options := [placeholderOption] },
    loginFields := s.loginFields }

/-! ## Token store (lines 333–349)

The `token` localStorage slot is an `Option String`: `none` models the
absent key (for which `getItem` returns `null`). -/

/-- `gettoken()`: `localStorage.getItem('token')`. -/
def gettoken (slot : Option String) : Option String := slot

/-- `removetoken()`: `localStorage.removeItem('token')`. -/
def removetoken (_slot : Option String) : Option String := none

/-- `isUserLoggedIn()`: `!!gettoken()` — JS double negation, i.e. string
truthiness of the stored value (the empty string is falsy). -/
def isUserLoggedIn (slot : Option String) : Bool :=
  jsTruthyStr (gettoken slot)

/-! ## Stored users (lines 321–324) -/

/-- One entry of the locally cached `users` list; only its `regNo`
property is ever consulted (`user.regNo === data.regNo`). -/
structure StoredUser where
  regNo : String
deriving DecidableEq

/-- `getStoredUsers()`: read the `users` localStorage slot; when the key
is absent return `[]`.  The JSON (de)serialization of a present list is
abstracted: the slot directly holds the parsed list. -/
def getStoredUsers (slot : Option (List StoredUser)) : List StoredUser :=
  match slot with
  | none => []
  | some users => users

/-! ## Composite signup validation (lines 289–312) -/

/-- The `ValidationResult` record `{ isValid, message? }`. -/
structure ValidationResult where
  isValid : Bool
  message : Option String
deriving DecidableEq

/-- The first guard of `validateSignupData`: `!data.name || ... ||
!data.confirmPassword` (JS falsiness of the eight required fields). -/
def requiredFieldMissing (d : SignupData) : Bool :=
  d.name == "" || d.fatherName == "" || d.course == "" || d.department == "" ||
  d.regNo == "" || d.passingYear == "" || d.password == "" || d.confirmPassword == ""

/-- `validateSignupData(data)`: the six checks in source order, returning
at the first failure.  `usersSlot` is the `users` localStorage slot read
by the inner `getStoredUsers()` call. -/
def validateSignupData (usersSlot : Option (List StoredUser)) (d : SignupData) :
    ValidationResult :=
  if requiredFieldMissing d then
    ⟨false, some "Please fill in all required fields"⟩
  else if !validateRegistrationNumber d.regNo then
    ⟨false, some "Invalid registration number format"⟩
  else if ((getStoredUsers usersSlot).find? (fun u => u.regNo == d.regNo)).isSome then
    ⟨false, some "Registration number already exists"⟩
  else if !validatePassingYear d.passingYear then
    ⟨false, some "Year must be between 1970 and 2025"⟩
  else if !validatePassword d.password then
    ⟨false, some "Password must be at least 8 characters with letters and numbers"⟩
  else if d.password != d.confirmPassword then
    ⟨false, some "Passwords do not match"⟩
  else
    ⟨true, none⟩

/-! ## API client (lines 438–470) -/

/-- The `user` object of an `ApiResponse` (only `name` is consulted,
through the optional chain `response.user?.name`). -/
structure UserInfo where
  name : Option String
deriving DecidableEq

/-- The parsed JSON `ApiResponse` body. -/
structure ApiResp where
  success : Bool
  message : Option String
  token : Option String
  user : Option UserInfo
  redirectUrl : Option String
deriving DecidableEq

/-- Outcome of the `fetch` call inside `makeApiCall`:
`noResponse errMsg` models a transport-level rejection of the fetch
promise (the rejecting error's `.message` is `errMsg`);
`response ok status body` models an HTTP response with `response.ok`,
`response.status`, and the outcome of `response.json()` (`Except.error`
carries a JSON parse error's message). -/
inductive FetchOutcome where
  | noResponse (errMsg : String)
  | response (ok : Bool) (status : Nat) (body : Except String ApiResp)

/-- `makeApiCall`: await fetch (a rejection propagates), await
`response.json()` (a parse failure propagates), then
`if (!response.ok) throw new Error(result.message || 'HTTP error! status: ' + status)`,
else return the parsed result.  The catch clause only logs and rethrows,
so the thrown error reaches the caller unchanged. -/
def makeApiCall (outcome : FetchOutcome) : Except String ApiResp :=
  match outcome with
  | .noResponse errMsg => .error errMsg
  | .response ok status body =>
    match body with
    | .error parseErr => .error parseErr
    | .ok result =>
      if ok then .ok result
      else .error (jsOrElse result.message ("HTTP error! status: " ++ toString status))

/-! ## Submission orchestrators (lines 480–588)

Each orchestrator is a function of the form data, the fetch outcome (the
world's answer to the single network request, unused when validation
aborts before the request), and the prior `token` slot.  The result
records the observable effects: whether the network request was issued,
the payload sent, the message passed to `showMessage`, the final `token`
slot, whether the submit button ends enabled (`showLoadingState(btn,
false)` runs on every completed path; on a local-validation abort it was
never disabled), and the scheduled continuation (redirect / form switch). -/

/-- Connectivity message shown when `error.message.includes('fetch')`. -/
def connectivityMsg : String :=
  "Unable to connect to server. Please check if the backend is running."

/-- Observable result of one `handleLogin` run. -/
structure LoginResult where
  networkCalled : Bool
  message : Option (String × String)
  token : Option String
  btnFinalEnabled : Bool
  redirectScheduled : Option String
deriving DecidableEq

/-- `handleLogin(e)`: local checks (required fields, registration number
format), then the API call; on `success` optionally persist the token and
schedule the redirect; otherwise show the error message, distinguishing
errors whose message contains `'fetch'`. -/
def handleLogin (data : LoginData) (outcome : FetchOutcome)
    (tok0 : Option String) : LoginResult :=
  if data.regNo = "" ∨ data.password = "" then
    { networkCalled := false,
      message := some ("Please fill in all required fields", "error"),
      token := tok0, btnFinalEnabled := true, redirectScheduled := none }
  else if !validateRegistrationNumber data.regNo then
    { networkCalled := false,
      message := some ("Invalid registration number format", "error"),
      token := tok0, btnFinalEnabled := true, redirectScheduled := none }
  else
    match makeApiCall outcome with
    | .ok response =>
      if response.success then
        { networkCalled := true,
          message := some ("Welcome back, " ++
            jsOrElse (response.user.bind (fun u => u.name)) "User" ++ "!", "success"),
          token := if jsTruthyStr response.token then response.token else tok0,
          btnFinalEnabled := true,
          redirectScheduled := some (jsOrElse response.redirectUrl "dashboard.html") }
      else
        { networkCalled := true,
          message := some (jsOrElse response.message "Login failed", "error"),
          token := tok0, btnFinalEnabled := true, redirectScheduled := none }
    | .error e =>
      { networkCalled := true,
        message := some
          (if strContains e "fetch" then connectivityMsg
           else jsStrOr e "Login failed. Please try again.", "error"),
        token := tok0, btnFinalEnabled := true, redirectScheduled := none }

/-- The payload sent by `handleSignup`: `signupData` minus
`confirmPassword` (`const \x7b confirmPassword, ...dataToSend \x7d = signupData`). -/
structure RegisterPayload where
  name : String
  fatherName : String
  course : String
  department : String
  regNo : String
  passingYear : String
  password : String
  currentPosition : String
  currentCompany : String
deriving DecidableEq

/-- Drop `confirmPassword` from the signup data. -/
def stripConfirmPassword (d : SignupData) : RegisterPayload :=
  { name := d.name, fatherName := d.fatherName, course := d.course,
    department := d.department, regNo := d.regNo, passingYear := d.passingYear,
    password := d.password, currentPosition := d.currentPosition,
    currentCompany := d.currentCompany }

/-- Observable result of one `handleSignup` run. -/
structure SignupResult where
  networkCalled : Bool
  payloadSent : Option RegisterPayload
  message : Option (String × String)
  token : Option String
  btnFinalEnabled : Bool
  switchScheduled : Bool
deriving DecidableEq

/-- `handleSignup(e)`: composite validation (abort with its message on
failure, no request), then the API call with the stripped payload; on
`success` show the account-created message and schedule the switch back
to login; failure handling mirrors `handleLogin`.  No branch writes the
`token` slot. -/
def handleSignup (usersSlot : Option (List StoredUser)) (data : SignupData)
    (outcome : FetchOutcome) (tok0 : Option String) : SignupResult :=
  if (validateSignupData usersSlot data).isValid = false then
    { networkCalled := false, payloadSent := none,
      message := (validateSignupData usersSlot data).message.map (fun m => (m, "error")),
      token := tok0, btnFinalEnabled := true, switchScheduled := false }
  else
    match makeApiCall outcome with
    | .ok response =>
      if response.success then
        { networkCalled := true, payloadSent := some (stripConfirmPassword data),
          message := some ("Account created successfully! You can now sign in.", "success"),
          token := tok0, btnFinalEnabled := true, switchScheduled := true }
      else
        { networkCalled := true, payloadSent := some (stripConfirmPassword data),
          message := some (jsOrElse response.message "Signup failed", "error"),
          token := tok0, btnFinalEnabled := true, switchScheduled := false }
    | .error e =>
      { networkCalled := true, payloadSent := some (stripConfirmPassword data),
        message := some
          (if strContains e "fetch" then connectivityMsg
           else jsStrOr e "Signup failed. Please try again.", "error"),
        token := tok0, btnFinalEnabled := true, switchScheduled := false }

/-! ## Spec-side definitions used to compare code behaviour with the
specification's wording -/

/-- Modelled from the spec (§4.1, §8): a "numeric" field value, i.e. a
string of decimal digits, possibly preceded by a minus sign, denoting an
integer; used to state the spec's reading of `isValidPassingYear`. -/
def isNumericString (s : String) : Bool :=
  match s.data with
  | [] => false
  | '-' :: t => !t.isEmpty && t.all (fun c => c.isDigit)
  | cs => cs.all (fun c => c.isDigit)

/-!
# Theorems for the claims
-/

/-- Claim C1 (counterexample): the invariant "isAuthenticated() equals
(getToken() !== null)" fails on the store state holding the empty string:
there `gettoken` returns a non-null value but `isUserLoggedIn`, which is
`!!gettoken()`, is false. -/
theorem isUserLoggedIn_empty_string_cex :
    isUserLoggedIn (some "") = false ∧ gettoken (some "") ≠ none := by
  decide

/-- Claim C1 (amended): after a login submission receives a successful
`ApiResponse` containing token `"xyz"`, the store persists it
(`gettoken` returns `"xyz"` and `isUserLoggedIn` is true); and for every
state of the store, `isUserLoggedIn` is true iff the stored token is a
non-null, non-empty string (JS truthiness, not a bare null check). -/
theorem login_token_persistence_amended :
    (∀ slot : Option String,
       isUserLoggedIn slot = true ↔ ∃ s, gettoken slot = some s ∧ s ≠ "") ∧
    (∀ (d : LoginData) (resp : ApiResp) (tok0 : Option String) (status : Nat),
       d.regNo ≠ "" → d.password ≠ "" → validateRegistrationNumber d.regNo = true →
       resp.success = true → resp.token = some "xyz" →
       (handleLogin d (.response true status (.ok resp)) tok0).token = some "xyz" ∧
       isUserLoggedIn (handleLogin d (.response true status (.ok resp)) tok0).token = true) := by
  constructor
  · intro slot
    cases slot with
    | none => simp [isUserLoggedIn, gettoken, jsTruthyStr]
    | some s => simp [isUserLoggedIn, gettoken, jsTruthyStr]
  · intro d resp tok0 status h1 h2 h3 h4 h5
    simp [handleLogin, makeApiCall, h1, h2, h3, h4, h5, isUserLoggedIn, gettoken,
      jsTruthyStr]

/-- Claim C1 witness: the amended theorem applied to a concrete login
run with token `"xyz"` on an initially empty store. -/
theorem login_token_persistence_witness :
    (handleLogin ⟨"AB1234", "pw"⟩
       (.response true 200 (.ok ⟨true, none, some "xyz", none, none⟩)) none).token
      = some "xyz" ∧
    isUserLoggedIn (handleLogin ⟨"AB1234", "pw"⟩
       (.response true 200 (.ok ⟨true, none, some "xyz", none, none⟩)) none).token
      = true :=
  login_token_persistence_amended.2 ⟨"AB1234", "pw"⟩ ⟨true, none, some "xyz", none, none⟩
    none 200 (by decide) (by decide) (by decide) rfl rfl

/-- Claim C2 (counterexample): `showMessage` does not replace the pending
auto-hide timer.  Showing "A" at t=0 and "B" at t=3000 leaves both timers
pending, and at t=5000 the first call's timer fires and hides "B", even
though 5000 is strictly before 3000 + 5000 — "B" does not stay visible
for its full 5-second interval. -/
theorem showMessage_stacked_timer_cex :
    (showMessage 3000 "B" "success"
       (advanceTo 3000 (showMessage 0 "A" "success" initialMsgState))).timers
      = [5000, 8000] ∧
    (advanceTo 5000 (showMessage 3000 "B" "success"
       (advanceTo 3000 (showMessage 0 "A" "success" initialMsgState)))).visibleText
      = none ∧
    5000 < 3000 + 5000 := by
  decide

/-- Claim C2 (amended): at most one message is visible at a time (a new
`showMessage` overwrites the message content), but a `showMessage` call
issued while a previous auto-hide is pending stacks a second timer
instead of replacing the first: the earlier timer stays pending and fires
at its original time, hiding the newly shown message strictly before the
new message's own 5-second interval has elapsed. -/
theorem showMessage_timers_stack (t0 t1 : Nat) (a k0 b k1 : String)
    (h0 : t0 < t1) (h1 : t1 < t0 + 5000) :
    ((showMessage t1 b k1 (advanceTo t1 (showMessage t0 a k0 initialMsgState))).visibleText
       = some (b, k1)) ∧
    ((showMessage t1 b k1 (advanceTo t1 (showMessage t0 a k0 initialMsgState))).timers
       = [t0 + 5000, t1 + 5000]) ∧
    ((advanceTo (t0 + 5000) (showMessage t1 b k1
        (advanceTo t1 (showMessage t0 a k0 initialMsgState)))).visibleText = none) ∧
    t0 + 5000 < t1 + 5000 := by
  have hnotdue : ¬ (t0 + 5000 ≤ t1) := by omega
  simp [showMessage, advanceTo, initialMsgState, hnotdue]
  omega

/-- Claim C2 witness: the amended theorem at t0 = 1000, t1 = 4000. -/
theorem showMessage_timers_stack_witness :
    (advanceTo (1000 + 5000) (showMessage 4000 "Bb" "success"
       (advanceTo 4000 (showMessage 1000 "Aa" "error" initialMsgState)))).visibleText
      = none ∧ 1000 + 5000 < 4000 + 5000 := by
  have h := showMessage_timers_stack 1000 4000 "Aa" "error" "Bb" "success"
    (by decide) (by decide)
  exact ⟨h.2.2.1, h.2.2.2⟩

/-- Claim C3 (counterexample): `validatePassingYear` is not "true iff the
input is numeric and in [1970, 2025]": the non-numeric input `"1970abc"`
evaluates to true, because `parseInt` reads the longest numeric prefix
and ignores the trailing garbage. -/
theorem validatePassingYear_nonnumeric_cex :
    validatePassingYear "1970abc" = true ∧ isNumericString "1970abc" = false := by
  decide

/-- Claim C3 (amended): `validatePassingYear y` is true iff `parseInt(y)`
(longest numeric prefix after optional whitespace, sign and `0x` prefix)
yields an integer in [1970, 2025]; in particular `"1970"` is accepted,
`"2026"` rejected, and non-numeric input such as `"abcd"` evaluates to
false (no error), but a string with numeric prefix and trailing garbage
such as `"1970abc"` is also accepted. -/
theorem validatePassingYear_parseInt_charac :
    (∀ y : String, validatePassingYear y = true ↔
       ∃ n : Int, jsParseInt y = some n ∧ 1970 ≤ n ∧ n ≤ 2025) ∧
    validatePassingYear "1970" = true ∧
    validatePassingYear "2026" = false ∧
    validatePassingYear "abcd" = false := by
  refine ⟨?_, by decide, by decide, by decide⟩
  intro y
  unfold validatePassingYear
  cases h : jsParseInt y with
  | none => simp
  | some n => simp

/-- Claim C3 witness: the amended characterization applied at `"2000"`. -/
theorem validatePassingYear_parseInt_witness :
    validatePassingYear "2000" = true :=
  (validatePassingYear_parseInt_charac.1 "2000").mpr ⟨2000, rfl, by decide, by decide⟩

/-- Helper: under a password/confirmation mismatch, `validateSignupData`
never reports success (some check fails: at latest the sixth). -/
theorem validateSignupData_mismatch_isValid (usersSlot : Option (List StoredUser))
    (data : SignupData) (hmm : data.password ≠ data.confirmPassword) :
    (validateSignupData usersSlot data).isValid = false := by
  unfold validateSignupData
  split
  · rfl
  split
  · rfl
  split
  · rfl
  split
  · rfl
  split
  · rfl
  split
  · rfl
  · rename_i hne
    simp at hne
    exact absurd hne hmm

/-- Helper: when the five checks preceding the password-equality check all
pass and the passwords differ, `validateSignupData` returns exactly the
mismatch failure. -/
theorem validateSignupData_mismatch_message (usersSlot : Option (List StoredUser))
    (data : SignupData)
    (h1 : requiredFieldMissing data = false)
    (h2 : validateRegistrationNumber data.regNo = true)
    (h3 : ((getStoredUsers usersSlot).find? (fun u => u.regNo == data.regNo)).isSome = false)
    (h4 : validatePassingYear data.passingYear = true)
    (h5 : validatePassword data.password = true)
    (hmm : data.password ≠ data.confirmPassword) :
    validateSignupData usersSlot data = ⟨false, some "Passwords do not match"⟩ := by
  simp [validateSignupData, h1, h2, h3, h4, h5, hmm]

/-- Claim C4 (counterexample): a signup submission whose passwords differ
but whose name field is empty surfaces "Please fill in all required
fields", not "Passwords do not match" — the first failing check of the
fixed order wins (no network call is made either way). -/
theorem signup_mismatch_message_cex :
    (handleSignup none
       ⟨"", "b", "UG", "ECONOMICS", "AB1234", "2000", "Abcd1234", "Abcd1235", "", ""⟩
       (.response true 200 (.ok ⟨true, none, none, none, none⟩)) none).networkCalled
      = false ∧
    (handleSignup none
       ⟨"", "b", "UG", "ECONOMICS", "AB1234", "2000", "Abcd1234", "Abcd1235", "", ""⟩
       (.response true 200 (.ok ⟨true, none, none, none, none⟩)) none).message
      = some ("Please fill in all required fields", "error") ∧
    ("Abcd1234" : String) ≠ "Abcd1235" ∧
    ("Please fill in all required fields" : String) ≠ "Passwords do not match" := by
  decide

/-- Claim C4 (amended): for every signup submission in which the password
differs from its confirmation, no network call is issued and no payload
is sent; the surfaced message is "Passwords do not match" when the five
checks preceding the equality check (required fields, registration number
format, duplicate registration, passing year, password strength) all
pass — otherwise the earlier failing check's message is reported, since
the composite validation short-circuits in the fixed order of §4.6. -/
theorem signup_mismatch_no_network (usersSlot : Option (List StoredUser))
    (data : SignupData) (outcome : FetchOutcome) (tok0 : Option String)
    (hmm : data.password ≠ data.confirmPassword) :
    (handleSignup usersSlot data outcome tok0).networkCalled = false ∧
    (handleSignup usersSlot data outcome tok0).payloadSent = none ∧
    (requiredFieldMissing data = false →
     validateRegistrationNumber data.regNo = true →
     ((getStoredUsers usersSlot).find? (fun u => u.regNo == data.regNo)).isSome = false →
     validatePassingYear data.passingYear = true →
     validatePassword data.password = true →
     (handleSignup usersSlot data outcome tok0).message
       = some ("Passwords do not match", "error")) := by
  have hv := validateSignupData_mismatch_isValid usersSlot data hmm
  refine ⟨?_, ?_, ?_⟩
  · unfold handleSignup
    simp [hv]
  · unfold handleSignup
    simp [hv]
  · intro h1 h2 h3 h4 h5
    have hm := validateSignupData_mismatch_message usersSlot data h1 h2 h3 h4 h5 hmm
    unfold handleSignup
    simp [hm]

/-- Claim C4 witness: the amended theorem applied to a submission that
passes every check before the equality check and mismatches there. -/
theorem signup_mismatch_no_network_witness :
    (handleSignup none
       ⟨"a", "b", "UG", "ECONOMICS", "AB1234", "2000", "Abcd1234", "Abcd1235", "", ""⟩
       (.noResponse "Failed to fetch") none).networkCalled = false ∧
    (handleSignup none
       ⟨"a", "b", "UG", "ECONOMICS", "AB1234", "2000", "Abcd1234", "Abcd1235", "", ""⟩
       (.noResponse "Failed to fetch") none).message
      = some ("Passwords do not match", "error") := by
  have h := signup_mismatch_no_network none
    ⟨"a", "b", "UG", "ECONOMICS", "AB1234", "2000", "Abcd1234", "Abcd1235", "", ""⟩
    (.noResponse "Failed to fetch") none (by decide)
  exact ⟨h.1, h.2.2 (by decide) (by decide) (by decide) (by decide) (by decide)⟩

/-- Claim C5: every non-ok HTTP response makes `makeApiCall` fail; when
the body parsed, the error is the backend-supplied message when that
message is present (truthy), otherwise the generic
`"HTTP error! status: <status>"`; and a body parse failure always
propagates as a failure of the call carrying the parse error. -/
theorem makeApiCall_error_contract :
    (∀ (status : Nat) (body : Except String ApiResp),
       ∃ e, makeApiCall (.response false status body) = .error e) ∧
    (∀ (status : Nat) (r : ApiResp) (m : String), r.message = some m → m ≠ "" →
       makeApiCall (.response false status (.ok r)) = .error m) ∧
    (∀ (status : Nat) (r : ApiResp), jsTruthyStr r.message = false →
       makeApiCall (.response false status (.ok r))
         = .error ("HTTP error! status: " ++ toString status)) ∧
    (∀ (ok : Bool) (status : Nat) (p : String),
       makeApiCall (.response ok status (.error p)) = .error p) := by
  refine ⟨?_, ?_, ?_, ?_⟩
  · intro status body
    cases body with
    | error p => exact ⟨p, rfl⟩
    | ok r => exact ⟨_, rfl⟩
  · intro status r m hm hne
    simp [makeApiCall, jsOrElse, hm, hne]
  · intro status r hfal
    cases hr : r.message with
    | none => simp [makeApiCall, jsOrElse, hr]
    | some s =>
      have hs : s = "" := by
        simpa [jsTruthyStr, hr] using hfal
      simp [makeApiCall, jsOrElse, hr, hs]
  · intro ok status p
    cases ok <;> rfl

/-- Claim C5 witness: a 404 with a backend message and a 500 with no
message, both through the contract theorem. -/
theorem makeApiCall_error_contract_witness :
    makeApiCall (.response false 404 (.ok ⟨false, some "Not found", none, none, none⟩))
      = .error "Not found" ∧
    makeApiCall (.response false 500 (.ok ⟨false, none, none, none, none⟩))
      = .error ("HTTP error! status: " ++ toString 500) :=
  ⟨makeApiCall_error_contract.2.1 404 ⟨false, some "Not found", none, none, none⟩
     "Not found" rfl (by decide),
   makeApiCall_error_contract.2.2.1 500 ⟨false, none, none, none, none⟩ rfl⟩

/-- Claim C6 (counterexample): the orchestrator classifies a failure as a
connectivity problem by testing whether the error message contains
`"fetch"`; a transport failure whose message is `"Load failed"` (the
message some hosts use for a network-level fetch rejection) surfaces that
raw message, not the connectivity-specific one. -/
theorem transport_failure_message_cex :
    (handleLogin ⟨"AB1234", "pw"⟩ (.noResponse "Load failed") none).message
      = some ("Load failed", "error") ∧
    ("Load failed" : String) ≠ connectivityMsg := by
  decide

/-- Claim C6 (amended): a transport failure whose error message contains
`"fetch"` makes both login and signup surface the connectivity-specific
message; and on every path (all failure paths included) the submit
control ends in its enabled, interactive state. -/
theorem transport_failure_amended :
    (∀ (d : LoginData) (msg : String) (tok0 : Option String),
       d.regNo ≠ "" → d.password ≠ "" → validateRegistrationNumber d.regNo = true →
       strContains msg "fetch" = true →
       (handleLogin d (.noResponse msg) tok0).message = some (connectivityMsg, "error")) ∧
    (∀ (usersSlot : Option (List StoredUser)) (data : SignupData) (msg : String)
       (tok0 : Option String),
       (validateSignupData usersSlot data).isValid = true →
       strContains msg "fetch" = true →
       (handleSignup usersSlot data (.noResponse msg) tok0).message
         = some (connectivityMsg, "error")) ∧
    (∀ (d : LoginData) (outcome : FetchOutcome) (tok0 : Option String),
       (handleLogin d outcome tok0).btnFinalEnabled = true) ∧
    (∀ (usersSlot : Option (List StoredUser)) (data : SignupData)
       (outcome : FetchOutcome) (tok0 : Option String),
       (handleSignup usersSlot data outcome tok0).btnFinalEnabled = true) := by
  refine ⟨?_, ?_, ?_, ?_⟩
  · intro d msg tok0 h1 h2 h3 hfetch
    simp [handleLogin, makeApiCall, h1, h2, h3, hfetch]
  · intro usersSlot data msg tok0 hv hfetch
    unfold handleSignup
    simp [makeApiCall, hv, hfetch]
  · intro d outcome tok0
    unfold handleLogin
    repeat' split
    all_goals rfl
  · intro usersSlot data outcome tok0
    unfold handleSignup
    repeat' split
    all_goals rfl

/-- Claim C6 witness: a transport failure with the common
`"Failed to fetch"` message, through the amended theorem. -/
theorem transport_failure_amended_witness :
    (handleLogin ⟨"XY9999", "pw2"⟩ (.noResponse "Failed to fetch") none).message
      = some (connectivityMsg, "error") ∧
    (handleLogin ⟨"XY9999", "pw2"⟩ (.noResponse "Failed to fetch") none).btnFinalEnabled
      = true :=
  ⟨transport_failure_amended.1 ⟨"XY9999", "pw2"⟩ "Failed to fetch" none
     (by decide) (by decide) (by decide) (by decide),
   transport_failure_amended.2.2.1 ⟨"XY9999", "pw2"⟩ (.noResponse "Failed to fetch") none⟩

/-- Claim C7: after a course-change event the department dropdown state
is a deterministic function of the selected course alone; an empty or
unknown course leaves it disabled with only the placeholder option; a
known course leaves it enabled with exactly the placeholder followed by
that course's catalog list; and every option shown is either the
placeholder or a member of the current course's list. -/
theorem handleCourseChange_deterministic :
    (∀ (c : String) (st st' : DeptState),
       handleCourseChange c st = handleCourseChange c st') ∧
    (∀ st : DeptState,
       handleCourseChange "" st = ⟨true, [placeholderOption]⟩) ∧
    (∀ (c : String) (st : DeptState), lookupCourse c = none →
       handleCourseChange c st = ⟨true, [placeholderOption]⟩) ∧
    (∀ (c : String) (depts : List String) (st : DeptState),
       c ≠ "" → lookupCourse c = some depts →
       handleCourseChange c st = ⟨false, placeholderOption :: depts⟩) ∧
    (∀ (c : String) (st : DeptState) (o : String),
       o ∈ (handleCourseChange c st).options →
       o = placeholderOption ∨ o ∈ (lookupCourse c).getD []) := by
  refine ⟨?_, ?_, ?_, ?_, ?_⟩
  · intro c st st'
    rfl
  · intro st
    simp [handleCourseChange]
  · intro c st h
    by_cases hc : c = ""
    · simp [handleCourseChange, hc]
    · simp [handleCourseChange, hc, h]
  · intro c depts st hc h
    simp [handleCourseChange, hc, h]
  · intro c st o ho
    by_cases hc : c = ""
    · simp [handleCourseChange, hc] at ho
      exact Or.inl ho
    · cases hl : lookupCourse c with
      | none =>
        simp [handleCourseChange, hc, hl] at ho
        exact Or.inl ho
      | some depts =>
        simp [handleCourseChange, hc, hl] at ho
        rcases ho with ho | ho
        · exact Or.inl ho
        · exact Or.inr (by simp [hl, ho])

/-- Claim C7 witness: the determinism theorem applied at course `"UG"`,
starting from the disabled placeholder state. -/
theorem handleCourseChange_witness :
    handleCourseChange "UG" ⟨true, [placeholderOption]⟩
      = ⟨false, placeholderOption ::
          ["ECONOMICS", "ENGLISH", "GEOGRAPHY", "HINDI", "HISTORY",
           "PHILOSOPHY", "POLITICAL SCIENCE", "PSYCHOLOGY", "URDU",
           "BOTANY", "CHEMISTRY", "MATHEMATICS", "PHYSICS", "ZOOLOGY",
           "BCA", "BBA", "BED"]⟩ :=
  handleCourseChange_deterministic.2.2.2.1 "UG"
    ["ECONOMICS", "ENGLISH", "GEOGRAPHY", "HINDI", "HISTORY",
     "PHILOSOPHY", "POLITICAL SCIENCE", "PSYCHOLOGY", "URDU",
     "BOTANY", "CHEMISTRY", "MATHEMATICS", "PHYSICS", "ZOOLOGY",
     "BCA", "BBA", "BED"]
    ⟨true, [placeholderOption]⟩ (by decide) (by decide)

/-- Claim C8: `switchToLogin` is idempotent on the observable UI state
(active form, message visibility, signup field contents, department
dropdown state; the untouched login fields are carried through):
calling it twice from any starting state equals calling it once. -/
theorem switchToLogin_idempotent (s : UIState) :
    switchToLogin (switchToLogin s) = switchToLogin s := rfl

/-- Claim C9: `handleSignup` never writes the token slot, whatever the
outcome of the submission (success responses included): the stored token
and hence `isUserLoggedIn` are unchanged from before the submission. -/
theorem handleSignup_token_frame (usersSlot : Option (List StoredUser))
    (data : SignupData) (outcome : FetchOutcome) (tok0 : Option String) :
    (handleSignup usersSlot data outcome tok0).token = tok0 ∧
    isUserLoggedIn (handleSignup usersSlot data outcome tok0).token
      = isUserLoggedIn tok0 := by
  have h : (handleSignup usersSlot data outcome tok0).token = tok0 := by
    unfold handleSignup
    repeat' split
    all_goals rfl
  exact ⟨h, by rw [h]⟩

/-- Claim C10: with the persistent `users` key absent, `getStoredUsers`
returns the empty list and the duplicate-registration check can never
fire; in general the "Registration number already exists" rejection is
produced only when the cached list contains an entry whose `regNo`
equals the submitted registration number. -/
theorem getStoredUsers_duplicate_check :
    (getStoredUsers none = []) ∧
    (∀ data : SignupData,
       (validateSignupData none data).message
         ≠ some "Registration number already exists") ∧
    (∀ (usersSlot : Option (List StoredUser)) (data : SignupData),
       (validateSignupData usersSlot data).message
         = some "Registration number already exists" →
       (getStoredUsers usersSlot).any (fun u => u.regNo == data.regNo) = true) := by
  refine ⟨rfl, ?_, ?_⟩
  · intro data
    unfold validateSignupData
    split
    · decide
    split
    · decide
    split
    · rename_i hfind
      simp [getStoredUsers] at hfind
    split
    · decide
    split
    · decide
    split
    · decide
    · decide
  · intro usersSlot data h
    unfold validateSignupData at h
    split at h
    · exact absurd h (by decide)
    split at h
    · exact absurd h (by decide)
    split at h
    · rename_i hfind
      obtain ⟨u, hu⟩ := Option.isSome_iff_exists.mp hfind
      have hmem := List.mem_of_find?_eq_some hu
      have hpu := List.find?_some hu
      rw [List.any_eq_true]
      exact ⟨u, hmem, hpu⟩
    split at h
    · exact absurd h (by decide)
    split at h
    · exact absurd h (by decide)
    split at h
    · exact absurd h (by decide)
    · exact absurd h (by decide)

/-- Claim C10 witness: a cached user with the submitted registration
number makes the duplicate check fire, through the theorem. -/
theorem getStoredUsers_duplicate_check_witness :
    (validateSignupData (some [⟨"AB1234"⟩])
       ⟨"a", "b", "UG", "ECONOMICS", "AB1234", "2000", "Abcd1234", "Abcd1234", "", ""⟩).message
      = some "Registration number already exists" ∧
    (getStoredUsers (some [⟨"AB1234"⟩])).any (fun u => u.regNo == "AB1234") = true := by
  refine ⟨by decide, ?_⟩
  exact getStoredUsers_duplicate_check.2.2 (some [⟨"AB1234"⟩])
    ⟨"a", "b", "UG", "ECONOMICS", "AB1234", "2000", "Abcd1234", "Abcd1234", "", ""⟩
    (by decide)

end LoginJs
